import Mathlib

/-!
Verification of `src/ui-tauri/src-tauri/src/lib.rs` (P2P-ChatApp Tauri shell).

The Rust file declares two Tauri commands, `get_backend_url` and
`get_ws_url`, each returning a fixed string, and a `run` entry point
that builds the application (one plugin, two invoke handlers) and calls
the run entry of the host framework, turning a host error into a fatal panic via
`.expect("error while running tauri application")`.

The commands take no arguments and are side-effect-free, so they are
embedded as pure functions of `Unit`; a call in an arbitrary ambient
state is embedded by explicit state passing, with the state returned
untouched because the Rust bodies read and write nothing.
-/

/-- Embedding of `fn get_backend_url() -> String`:
its body is `"http://127.0.0.1:8080".to_string()`. -/
def get_backend_url (_ : Unit) : String :=
  "http://127.0.0.1:8080"

/-- Embedding of `fn get_ws_url() -> String`:
its body is `"ws://127.0.0.1:8081/events".to_string()`. -/
def get_ws_url (_ : Unit) : String :=
  "ws://127.0.0.1:8081/events"

/-- A call to `get_backend_url` in an ambient state of any type `S`:
the Rust body touches no state, so the state passes through unchanged. -/
def get_backend_url_st {S : Type} (s : S) : String × S :=
  (get_backend_url (), s)

/-- A call to `get_ws_url` in an ambient state of any type `S`:
the Rust body touches no state, so the state passes through unchanged. -/
def get_ws_url_st {S : Type} (s : S) : String × S :=
  (get_ws_url (), s)

/-- The two commands listed in `tauri::generate_handler![get_backend_url, get_ws_url]`. -/
inductive Cmd where
  | getBackendUrlCmd
  | getWsUrlCmd
deriving DecidableEq, Repr

/-- Dispatch of a registered command to its handler, as wired by
`generate_handler!`. Neither command takes a payload. -/
def handle : Cmd → String
  | .getBackendUrlCmd => get_backend_url ()
  | .getWsUrlCmd => get_ws_url ()

/-- The invoke layer surfaces a command result as fallible; a Tauri command
whose Rust return type is plain `String` (not `Result`) always surfaces as
the success branch, so the lift is `Except.ok` of the handler value. -/
def handleInvoke (c : Cmd) : Except String String :=
  .ok (handle c)

/-- The single plugin wired in `run`: `tauri_plugin_opener::init()`. -/
inductive Plugin where
  | opener
deriving DecidableEq, Repr

/-- The builder state accumulated by `tauri::Builder`: the plugins wired by
`.plugin(..)` and the command handlers registered by `.invoke_handler(..)`. -/
structure Builder where
  plugins : List Plugin
  handlers : List Cmd
deriving DecidableEq, Repr

/-- `tauri::Builder::default()`: no plugins, no handlers. -/
def Builder.default : Builder :=
  ⟨[], []⟩

/-- `.plugin(p)`: appends one plugin to the builder. -/
def Builder.plugin (b : Builder) (p : Plugin) : Builder :=
  { b with plugins := b.plugins ++ [p] }

/-- `.invoke_handler(generate_handler![..])`: registers the listed commands. -/
def Builder.invoke_handler (b : Builder) (cs : List Cmd) : Builder :=
  { b with handlers := b.handlers ++ cs }

/-- The builder value constructed inside `run`:
`tauri::Builder::default().plugin(tauri_plugin_opener::init()).invoke_handler(tauri::generate_handler![get_backend_url, get_ws_url])`. -/
def builtBuilder : Builder :=
  (Builder.default.plugin Plugin.opener).invoke_handler
    [Cmd.getBackendUrlCmd, Cmd.getWsUrlCmd]

/-- Outcome of the process after `run`: either the host ran normally, or
the process aborted with a fatal message. -/
inductive RunOutcome where
  | normal
  | panicked (msg : String)
deriving DecidableEq, Repr

/-- Embedding of `pub fn run()`. The call `.run(ctx)` into the host framework is opaque
to this file, so it is a parameter mapping the built builder to its result,
with the host error carried as its Debug rendering (a string).
`.expect("error while running tauri application")` maps `Ok` to normal
continuation and `Err(e)` to a fatal panic whose message is, per the Rust
`Result::expect` contract, the passed message followed by `: ` and the
Debug rendering of `e`. -/
def run (hostRun : Builder → Except String Unit) : RunOutcome :=
  match hostRun builtBuilder with
  | .ok _ => .normal
  | .error e => .panicked ("error while running tauri application: " ++ e)

/-! URL-shape measurement functions, used only to state claims about the
returned strings (scheme, host, port, path of a `scheme://host:port/path`
URL). They work on the character list of the string, by structural
recursion, so that concrete instances evaluate in the kernel. -/

/-- If `sep` is a leading segment of `l`, return what follows it. -/
def stripLead : List Char → List Char → Option (List Char)
  | [], l => some l
  | _ :: _, [] => none
  | c :: cs, d :: ds => if c = d then stripLead cs ds else none

/-- Split `l` at the first occurrence of `sep`, returning the pieces
before and after it, or `none` when `sep` does not occur in `l`. -/
def breakOn (sep : List Char) : List Char → Option (List Char × List Char)
  | [] =>
    match stripLead sep [] with
    | some rest => some ([], rest)
    | none => none
  | c :: cs =>
    match stripLead sep (c :: cs) with
    | some rest => some ([], rest)
    | none =>
      match breakOn sep cs with
      | some (pre, post) => some (c :: pre, post)
      | none => none

/-- The characters of `://`, separating scheme from authority. -/
def schemeSep : List Char := [':', '/', '/']

/-- The scheme of a URL string: the part before `://`. -/
def schemeOf (u : String) : String :=
  match breakOn schemeSep u.data with
  | some (pre, _) => ⟨pre⟩
  | none => ""

/-- The part of a URL string after `://`. -/
def afterSchemeOf (u : String) : String :=
  match breakOn schemeSep u.data with
  | some (_, post) => ⟨post⟩
  | none => ""

/-- The authority (host and optional port) of a URL string. -/
def authorityOf (u : String) : String :=
  match breakOn ['/'] (afterSchemeOf u).data with
  | some (pre, _) => ⟨pre⟩
  | none => afterSchemeOf u

/-- The host of a URL string: the authority up to the first `:`. -/
def hostOf (u : String) : String :=
  match breakOn [':'] (authorityOf u).data with
  | some (pre, _) => ⟨pre⟩
  | none => authorityOf u

/-- The port of a URL string: the authority after the first `:`. -/
def portOf (u : String) : String :=
  match breakOn [':'] (authorityOf u).data with
  | some (_, post) => ⟨post⟩
  | none => ""

/-- The path of a URL string: what follows the authority. -/
def pathOf (u : String) : String :=
  match breakOn ['/'] (afterSchemeOf u).data with
  | some (_, post) => ⟨'/' :: post⟩
  | none => ""

/-- C1: every call to `get_backend_url` returns exactly the string
`http://127.0.0.1:8080`. -/
theorem backend_url_value :
    ∀ u : Unit, get_backend_url u = "http://127.0.0.1:8080" :=
  fun _ => rfl

/-- C2: every call to `get_ws_url` returns exactly the string
`ws://127.0.0.1:8081/events`. -/
theorem ws_url_value :
    ∀ u : Unit, get_ws_url u = "ws://127.0.0.1:8081/events" :=
  fun _ => rfl

/-- C3: both accessors are pure and deterministic: any two calls to the
same accessor return equal strings, and a call in any ambient state leaves
that state unchanged while returning the same constant. -/
theorem accessors_pure_deterministic :
    (∀ u v : Unit, get_backend_url u = get_backend_url v) ∧
    (∀ u v : Unit, get_ws_url u = get_ws_url v) ∧
    (∀ (S : Type) (s : S), get_backend_url_st s = (get_backend_url (), s)) ∧
    (∀ (S : Type) (s : S), get_ws_url_st s = (get_ws_url (), s)) :=
  ⟨fun _ _ => rfl, fun _ _ => rfl, fun _ _ => rfl, fun _ _ => rfl⟩

/-- C4: neither command takes a payload (the handlers are dispatched from
the bare command name alone) and neither can surface a signaled error:
every invocation is an `ok` carrying a plain string, and the error branch
of the invoke interface is never taken. -/
theorem accessors_never_error :
    ∀ c : Cmd,
      (∃ s : String, handleInvoke c = Except.ok s) ∧
      (∀ e : String, handleInvoke c ≠ Except.error e) :=
  fun c => ⟨⟨handle c, rfl⟩, fun _ h => Except.noConfusion h⟩

/-- C5: the only failure path of `run` is host-framework failure: `run`
panics with a fatal message if and only if the host run call on the built
application returns an error, and no command handler in the file can fail. -/
theorem run_fails_only_on_host_error :
    ∀ hostRun : Builder → Except String Unit,
      ((∃ m, run hostRun = RunOutcome.panicked m) ↔
        (∃ e, hostRun builtBuilder = Except.error e)) ∧
      (∀ c : Cmd, ∃ s : String, handleInvoke c = Except.ok s) := by
  intro hostRun
  refine ⟨⟨fun hm => ?_, fun he => ?_⟩, fun c => ⟨handle c, rfl⟩⟩
  · obtain ⟨m, hm⟩ := hm
    unfold run at hm
    cases he : hostRun builtBuilder with
    | ok _ => rw [he] at hm; cases hm
    | error e => exact ⟨e, rfl⟩
  · obtain ⟨e, he⟩ := he
    refine ⟨"error while running tauri application: " ++ e, ?_⟩
    unfold run
    rw [he]

/-- C6: `run` registers exactly the two command handlers
`get_backend_url` and `get_ws_url`, both returning the fixed hardcoded
endpoint strings, and wires exactly one plugin, the opener plugin. -/
theorem run_wires_two_handlers_one_plugin :
    builtBuilder.handlers = [Cmd.getBackendUrlCmd, Cmd.getWsUrlCmd] ∧
    builtBuilder.handlers.length = 2 ∧
    builtBuilder.plugins = [Plugin.opener] ∧
    builtBuilder.plugins.length = 1 ∧
    handle Cmd.getBackendUrlCmd = "http://127.0.0.1:8080" ∧
    handle Cmd.getWsUrlCmd = "ws://127.0.0.1:8081/events" :=
  ⟨rfl, rfl, rfl, rfl, rfl, rfl⟩

/-- C7: both returned endpoint strings are loopback URLs: the backend URL
has scheme `http` and host `127.0.0.1`, and the event URL has scheme `ws`
and host `127.0.0.1`. -/
theorem endpoints_are_loopback :
    schemeOf (get_backend_url ()) = "http" ∧
    hostOf (get_backend_url ()) = "127.0.0.1" ∧
    schemeOf (get_ws_url ()) = "ws" ∧
    hostOf (get_ws_url ()) = "127.0.0.1" := by
  decide

/-- C8: the two returned strings are distinct, differing in scheme, port
(`8080` versus `8081`) and path, so the two endpoints never denote the
same address. -/
theorem endpoints_distinct :
    get_backend_url () ≠ get_ws_url () ∧
    schemeOf (get_backend_url ()) ≠ schemeOf (get_ws_url ()) ∧
    portOf (get_backend_url ()) = "8080" ∧
    portOf (get_ws_url ()) = "8081" ∧
    portOf (get_backend_url ()) ≠ portOf (get_ws_url ()) ∧
    pathOf (get_backend_url ()) ≠ pathOf (get_ws_url ()) := by
  decide

/-- C9: both accessors are total: every call terminates with a string
value (their bodies are single constants, with no recursion or looping,
and the embedding is a total function). -/
theorem accessors_total :
    ∀ u : Unit,
      (∃ s : String, get_backend_url u = s) ∧
      (∃ s : String, get_ws_url u = s) :=
  fun _ => ⟨⟨_, rfl⟩, ⟨_, rfl⟩⟩

/-- C10 counterexample: at a concrete failing host the fatal message is
not exactly `error while running tauri application`, because
`Result::expect` appends `: ` and the Debug rendering of the error. -/
theorem run_fatal_message_counterexample :
    run (fun _ => Except.error "boom")
      ≠ RunOutcome.panicked "error while running tauri application" := by
  decide

/-- C10 amended: when host initialization fails with an error whose Debug
rendering is `e`, the fatal message `run` produces is exactly
`error while running tauri application` followed by `: ` and `e`; in
particular it begins with that constant but is not equal to it. -/
theorem run_fatal_message_amended (hostRun : Builder → Except String Unit)
    (e : String) (h : hostRun builtBuilder = Except.error e) :
    run hostRun
      = RunOutcome.panicked ("error while running tauri application: " ++ e) := by
  unfold run
  rw [h]

/-- Witness for `run_fatal_message_amended` at a concrete failing host. -/
theorem run_fatal_message_amended_witness :
    (fun _ : Builder => (Except.error "boom" : Except String Unit)) builtBuilder
        = Except.error "boom" ∧
    run (fun _ => Except.error "boom")
        = RunOutcome.panicked "error while running tauri application: boom" :=
  ⟨rfl, run_fatal_message_amended (fun _ => Except.error "boom") "boom" rfl⟩
